import Mathlib

/-!
Verification of the VoiceGuard acoustic heuristic classifier
(`VoiceGuard_Final_Code`: `model.py`, `utils.py`).

The embedding is a shallow one over exact rationals: Python floats are
modelled as `ℚ` (the scoring arithmetic of `VoiceClassifier.predict` is
exact decimal arithmetic, so nothing is lost), and the one genuinely real
computation (`10 * log10` inside `calculate_hnr`) is modelled over `ℝ`
with `Real.logb`.  External library calls (`librosa.pyin`, the RMS frame
computation) are not re-implemented; where a repository function consumes
their output, the embedding takes that output as an argument.
`librosa.autocorrelate` (plain full autocorrelation) is embedded directly.
Python `str.format` fixed-point rendering of the measured values inside
explanation fragments is abbreviated to an exact rational rendering; no
claim below depends on the digits rendered.
-/

/-- The seven-field feature record produced by
`VoiceClassifier.extract_features` and consumed by
`VoiceClassifier.predict` (`model.py`, lines 156-164). -/
structure FeatureSet where
  pitch_std : ℚ
  pitch_mean : ℚ
  jitter : ℚ
  shimmer : ℚ
  hnr : ℚ
  spectral_flatness : ℚ
  silence_ratio : ℚ

/-- Result triple returned by `VoiceClassifier.predict`
(`model.py`, line 262). -/
structure ClassificationResult where
  label : String
  confidence : ℚ
  explanation : String

/-- Rendering of a rational measurement inside an explanation fragment.
Stands in for Python fixed-point `format`; always a non-empty string. -/
def fmtQ (q : ℚ) : String :=
  if q.den = 1 then toString q.num else toString q.num ++ "/" ++ toString q.den

/-- Python `sep.join(l)` on a list of strings. -/
def joinSep (sep : String) : List String → String
  | [] => ""
  | [x] => x
  | x :: y :: xs => x ++ sep ++ joinSep sep (y :: xs)

/-- The running score accumulated by `VoiceClassifier.predict`
(`model.py`, lines 173-225): six independent signed contributions,
written here as a sum in the source's evaluation order. -/
def scoreOf (fs : FeatureSet) : ℚ :=
  (if fs.pitch_std < 20.0 then 0.25 else -0.15)
  + (if fs.jitter < 0.03 then 0.25 else -0.15)
  + (if fs.shimmer < 0.05 then 0.2 else -0.1)
  + (if 20.0 < fs.hnr then 0.15 else if fs.hnr < 10.0 then 0.1 else 0)
  + (if fs.spectral_flatness < 0.01 then 0.1 else 0)
  + (if FeatureSet.silence_ratio fs < 0.02 then 0.05 else 0)

/-- The explanation fragments appended by the same six branches, in the
source's order (`model.py`, lines 180-225).  Branch 1 appends a fragment
in both of its arms; branches 2-6 only in their score-increasing arm. -/
def explanationsOf (fs : FeatureSet) : List String :=
  (if fs.pitch_std < 20.0 then
    ["Monotone pitch pattern (std: " ++ fmtQ fs.pitch_std ++ "Hz)"]
   else
    ["Natural pitch variation (std: " ++ fmtQ fs.pitch_std ++ "Hz)"])
  ++ (if fs.jitter < 0.03 then
    ["Perfect pitch timing (jitter: " ++ fmtQ fs.jitter ++ ")"] else [])
  ++ (if fs.shimmer < 0.05 then
    ["Uniform amplitude (shimmer: " ++ fmtQ fs.shimmer ++ ")"] else [])
  ++ (if 20.0 < fs.hnr then
    ["Synthetic clarity (HNR: " ++ fmtQ fs.hnr ++ "dB)"]
   else if fs.hnr < 10.0 then
    ["Unusual noise pattern (HNR: " ++ fmtQ fs.hnr ++ "dB)"] else [])
  ++ (if fs.spectral_flatness < 0.01 then ["Overly tonal spectrum"] else [])
  ++ (if FeatureSet.silence_ratio fs < 0.02 then ["Lack of natural pauses"] else [])

/-- `ai_probability` before clamping (`model.py`, line 228). -/
def aiProbabilityRaw (fs : FeatureSet) : ℚ :=
  0.5 + scoreOf fs * 0.8

/-- `ai_probability` after clamping (`model.py`, line 229):
`max(0.01, min(0.99, ai_probability))`. -/
def aiProbability (fs : FeatureSet) : ℚ :=
  max 0.01 (min 0.99 (aiProbabilityRaw fs))

/-- Python `round(x, 2)` (round half to even on the second decimal).
Every confidence value produced by `predict` is an exact multiple of
1/100, so the tie-breaking rule is never exercised. -/
def round2 (q : ℚ) : ℚ :=
  (if 100 * q - ⌊100 * q⌋ < 1/2 then (⌊100 * q⌋ : ℚ)
   else if 1/2 < 100 * q - ⌊100 * q⌋ then (⌊100 * q⌋ : ℚ) + 1
   else if ⌊100 * q⌋ % 2 = 0 then (⌊100 * q⌋ : ℚ) else (⌊100 * q⌋ : ℚ) + 1) / 100

/-- Human-trait fragments listed in the HUMAN branch
(`model.py`, lines 246-252). -/
def humanTraits (fs : FeatureSet) : List String :=
  (if 20.0 ≤ fs.pitch_std then ["dynamic intonation"] else [])
  ++ (if 0.03 ≤ fs.jitter then ["natural pitch variation"] else [])
  ++ (if 0.05 ≤ fs.shimmer then ["organic amplitude changes"] else [])

/-- `VoiceClassifier.predict` from the computed feature set onward
(`model.py`, lines 228-262): decision, confidence (returned rounded to
2 decimal places), and explanation. -/
def predict (fs : FeatureSet) : ClassificationResult :=
  if 0.5 < aiProbability fs then
    { label := "AI_GENERATED"
      confidence := round2 (aiProbability fs)
      explanation :=
        if 0 < (explanationsOf fs).length then
          joinSep " | " ((explanationsOf fs).take 3)
        else "Multiple synthetic audio patterns detected" }
  else
    { label := "HUMAN"
      confidence := round2 (1 - aiProbability fs)
      explanation :=
        if humanTraits fs ≠ [] then
          "Natural speech characteristics: " ++ joinSep ", " (humanTraits fs)
        else "Natural pitch variation and prosody detected" }

/-- Clamp as the spec states it: `clamp(x, lo, hi)`. -/
def clampQ (x lo hi : ℚ) : ℚ := max lo (min x hi)

/-- The scoring rule exactly as the spec's table states it: a sum of
independent signed contributions, the HNR branch written as the spec's
three exclusive cases. -/
def specScore (fs : FeatureSet) : ℚ :=
  (if fs.pitch_std < 20.0 then 0.25 else -0.15)
  + (if fs.jitter < 0.03 then 0.25 else -0.15)
  + (if fs.shimmer < 0.05 then 0.2 else -0.1)
  + (if 20.0 < fs.hnr then 0.15
     else if fs.hnr < 10.0 then 0.1
     else 0)
  + (if fs.spectral_flatness < 0.01 then 0.1 else 0)
  + (if FeatureSet.silence_ratio fs < 0.02 then 0.05 else 0)

/-- The positive-indicator notes as the spec's words describe them: only
the fragments emitted by score-increasing branches, in branch order.
(The code's accumulated list additionally contains the
natural-pitch-variation fragment from the score-decreasing pitch arm.) -/
def positiveNotesOf (fs : FeatureSet) : List String :=
  (if fs.pitch_std < 20.0 then
    ["Monotone pitch pattern (std: " ++ fmtQ fs.pitch_std ++ "Hz)"] else [])
  ++ (if fs.jitter < 0.03 then
    ["Perfect pitch timing (jitter: " ++ fmtQ fs.jitter ++ ")"] else [])
  ++ (if fs.shimmer < 0.05 then
    ["Uniform amplitude (shimmer: " ++ fmtQ fs.shimmer ++ ")"] else [])
  ++ (if 20.0 < fs.hnr then
    ["Synthetic clarity (HNR: " ++ fmtQ fs.hnr ++ "dB)"]
   else if fs.hnr < 10.0 then
    ["Unusual noise pattern (HNR: " ++ fmtQ fs.hnr ++ "dB)"] else [])
  ++ (if fs.spectral_flatness < 0.01 then ["Overly tonal spectrum"] else [])
  ++ (if FeatureSet.silence_ratio fs < 0.02 then ["Lack of natural pauses"] else [])

/-- The AI-branch explanation exactly as C5's words state it: the first
three accumulated positive-indicator notes joined with " | ", or the
generic fallback if none were accumulated. -/
def specAIExplanation (fs : FeatureSet) : String :=
  if positiveNotesOf fs ≠ [] then joinSep " | " ((positiveNotesOf fs).take 3)
  else "Multiple synthetic audio patterns detected"

/-- The AI-branch explanation as amended: the accumulated notes comprise
the positive-indicator notes and also the natural-pitch-variation note
recorded when the pitch check fails; the explanation is the first three
of those joined with " | " (or the generic fallback if none). -/
def specAIExplanationAmended (fs : FeatureSet) : String :=
  if explanationsOf fs ≠ [] then joinSep " | " ((explanationsOf fs).take 3)
  else "Multiple synthetic audio patterns detected"

/-- `librosa.autocorrelate` at lag `k`: the inner product of the signal
with its own shift by `k` samples. -/
def autocorrAt (y : List ℚ) (k : ℕ) : ℚ :=
  (y.zipWith (· * ·) (y.drop k)).sum

/-- Full (unbounded) autocorrelation as `librosa.autocorrelate` returns
it: one value per lag `0 ≤ k < len(y)`. -/
def autocorrelate (y : List ℚ) : List ℚ :=
  (List.range y.length).map (autocorrAt y)

/-- `np.mean` on a list of rationals (0 on the empty list; the source
reaches that case only where a `> 0` comparison then fails, matching the
NaN behaviour of `np.mean([])`). -/
def mean (l : List ℚ) : ℚ := l.sum / (l.length : ℚ)

/-- The peak scan of `calculate_hnr` (`model.py`, lines 82-86):
`for i in range(1, min(len(autocorr), sr // 50))`, keeping indices that
are strict local maxima (with the in-bounds guard `i < len - 1`). -/
def findPeaks (ac : List ℚ) (sr : ℕ) : List (ℕ × ℚ) :=
  (List.range' 1 (min ac.length (sr / 50) - 1)).filterMap fun i =>
    if i + 1 < ac.length ∧ ac.getD (i - 1) 0 < ac.getD i 0 ∧ ac.getD (i + 1) 0 < ac.getD i 0
    then some (i, ac.getD i 0) else none

/-- Python `max(peaks, key=lambda x: x[1])`: the first pair attaining
the maximal value (replace only on strictly greater). -/
def maxPeak : List (ℕ × ℚ) → Option (ℕ × ℚ)
  | [] => none
  | p :: ps => some (ps.foldl (fun best q => if best.2 < q.2 then q else best) p)

/-- `np.clip(x, lo, hi)`. -/
noncomputable def np_clip (x lo hi : ℝ) : ℝ := min (max x lo) hi

/-- The noise-power estimate of `calculate_hnr` (`model.py`, line 96):
`np.mean(autocorr[peak_idx+1:peak_idx+50])` when `peak_idx+50 < len`,
else `np.mean(autocorr[peak_idx+1:])`.  The slice `[p+1 : p+50]` holds
the 49 samples at indices `p+1 … p+49`. -/
def hnrNoise (ac : List ℚ) (p : ℕ) : ℚ :=
  if p + 50 < ac.length then mean ((ac.drop (p + 1)).take 49)
  else mean (ac.drop (p + 1))

/-- `calculate_hnr` from the autocorrelation onward (`model.py`,
lines 82-102): no peak ⇒ 10.0; positive noise power ⇒
`clip(10*log10(peak/noise), 0, 40)`; otherwise 10.0. -/
noncomputable def hnrFromAutocorr (ac : List ℚ) (sr : ℕ) : ℝ :=
  match maxPeak (findPeaks ac sr) with
  | none => 10
  | some pv =>
    if 0 < hnrNoise ac pv.1 then
      np_clip (10 * Real.logb 10 ((pv.2 : ℝ) / ((hnrNoise ac pv.1 : ℚ) : ℝ))) 0 40
    else 10

/-- `VoiceClassifier.calculate_hnr` (`model.py`, lines 71-104). -/
noncomputable def calculate_hnr (y : List ℚ) (sr : ℕ) : ℝ :=
  hnrFromAutocorr (autocorrelate y) sr

/-- Noise power as C4's words state it: the mean of the next 50
autocorrelation samples following the peak, or all remaining samples if
fewer than 50 remain. -/
def hnrNoise50 (ac : List ℚ) (p : ℕ) : ℚ :=
  mean ((ac.drop (p + 1)).take 50)

/-- The HNR computation as C4's words state it (50-sample noise window,
all else as the source). -/
noncomputable def hnr50FromAutocorr (ac : List ℚ) (sr : ℕ) : ℝ :=
  match maxPeak (findPeaks ac sr) with
  | none => 10
  | some pv =>
    if 0 < hnrNoise50 ac pv.1 then
      np_clip (10 * Real.logb 10 ((pv.2 : ℝ) / ((hnrNoise50 ac pv.1 : ℚ) : ℝ))) 0 40
    else 10

/-- C4's claimed HNR, applied to a signal. -/
noncomputable def calculate_hnr50 (y : List ℚ) (sr : ℕ) : ℝ :=
  hnr50FromAutocorr (autocorrelate y) sr

/-- Noise power as amended: the mean of the next 49 autocorrelation
samples following the peak, or all remaining samples if fewer than 49
remain. -/
def hnrNoise49 (ac : List ℚ) (p : ℕ) : ℚ :=
  mean ((ac.drop (p + 1)).take 49)

/-- The HNR computation as amended (49-sample noise window). -/
noncomputable def hnr49FromAutocorr (ac : List ℚ) (sr : ℕ) : ℝ :=
  match maxPeak (findPeaks ac sr) with
  | none => 10
  | some pv =>
    if 0 < hnrNoise49 ac pv.1 then
      np_clip (10 * Real.logb 10 ((pv.2 : ℝ) / ((hnrNoise49 ac pv.1 : ℚ) : ℝ))) 0 40
    else 10

/-- The amended HNR, applied to a signal. -/
noncomputable def calculate_hnr49 (y : List ℚ) (sr : ℕ) : ℝ :=
  hnr49FromAutocorr (autocorrelate y) sr

/-- A 53-sample signal whose autocorrelation separates the code's
49-sample noise window from the claimed 50-sample window: spikes of
102, -2, 1 at positions 0, 1, 2 and 51 at position 52. -/
def hnrCounterSignal : List ℚ := [102, -2, 1] ++ List.replicate 49 0 ++ [51]

/-- The autocorrelation of `hnrCounterSignal` (proved below). -/
def hnrCounterAC : List ℚ := [13010, -206, 102] ++ List.replicate 47 0 ++ [51, -102, 5202]

/-- `decode_audio` (`utils.py`, lines 18-51).  The base64 decode, MP3
parsing, resampling and int-to-float conversion are external
(pydub/ffmpeg); the embedding starts at the decoded, normalized sample
array and models the length validation and the outer exception wrapper
(the inner `ValueError` is re-raised as
`"Failed to process audio: ..."`). -/
def decode_audio (data : List ℚ) : Except String (List ℚ × ℕ) :=
  if (data.length : ℚ) < 22050 * 0.5 then
    Except.error "Failed to process audio: Audio processing failed: Audio too short (min 0.5s required)"
  else Except.ok (data, 22050)

/-- `np.abs(np.diff(l))`: absolute differences of consecutive values. -/
def absDiffs (l : List ℚ) : List ℚ :=
  (l.zip l.tail).map fun p => |p.2 - p.1|

/-- `VoiceClassifier.calculate_jitter` (`model.py`, lines 26-48) as a
function of the pitch-track output `f0` (produced by the external
`librosa.pyin`; the unused `y`, `sr` parameters are dropped). -/
def calculate_jitter (f0 : List ℚ) : ℚ :=
  let f0_voiced := f0.filter fun x => 0 < x
  if f0_voiced.length < 2 then 0
  else
    let periods := f0_voiced.map fun x => 1 / x
    if 0 < mean periods then mean (absDiffs periods) / mean periods else 0

/-- `VoiceClassifier.calculate_shimmer` (`model.py`, lines 50-69) as a
function of the RMS frame values (produced by the external
`librosa.feature.rms`). -/
def calculate_shimmer (rms : List ℚ) : ℚ :=
  if rms.length < 2 then 0
  else if 0 < mean rms then mean (absDiffs rms) / mean rms else 0

/-- C1: the engine's running score agrees with the spec's
signed-contribution table, and the decision probability is the clamped
affine image of that score. -/
theorem c1_score_and_probability (fs : FeatureSet) :
    scoreOf fs = specScore fs ∧
    aiProbability fs = clampQ (0.5 + specScore fs * 0.8) 0.01 0.99 := by
  refine ⟨rfl, ?_⟩
  unfold aiProbability clampQ
  rw [min_comm]
  rfl

/-- C2: the label is `AI_GENERATED` exactly when the clamped
`ai_probability` is strictly greater than 0.5, and `HUMAN` otherwise. -/
theorem c2_label_iff (fs : FeatureSet) :
    ((predict fs).label = "AI_GENERATED" ↔ 0.5 < aiProbability fs) ∧
    ((predict fs).label = "HUMAN" ↔ ¬ 0.5 < aiProbability fs) := by
  by_cases h : (0.5 : ℚ) < aiProbability fs
  · simp [predict, h]
  · simp [predict, h]

/-- Witness for C2 at a concrete feature set: every indicator fires, the
probability clamps to 0.99, and the label is `AI_GENERATED`. -/
theorem c2_label_iff_witness :
    (predict ⟨0, 0, 0, 0, 25, 0, 0⟩).label = "AI_GENERATED" :=
  (c2_label_iff ⟨0, 0, 0, 0, 25, 0, 0⟩).1.mpr
    (by norm_num [aiProbability, aiProbabilityRaw, scoreOf])

/-- Every value the running score can take is an integer multiple of
1/20: each contribution is one of 0.25, 0.2, 0.15, 0.1, 0.05, 0,
-0.1, -0.15. -/
theorem scoreOf_exists_div20 (fs : FeatureSet) :
    ∃ m : ℤ, scoreOf fs = (m : ℚ) / 20 := by
  have h1 : ∃ m : ℤ, (if fs.pitch_std < 20.0 then (0.25 : ℚ) else -0.15) = (m : ℚ) / 20 := by
    by_cases h : fs.pitch_std < 20.0
    · exact ⟨5, by rw [if_pos h]; norm_num⟩
    · exact ⟨-3, by rw [if_neg h]; norm_num⟩
  have h2 : ∃ m : ℤ, (if fs.jitter < 0.03 then (0.25 : ℚ) else -0.15) = (m : ℚ) / 20 := by
    by_cases h : fs.jitter < 0.03
    · exact ⟨5, by rw [if_pos h]; norm_num⟩
    · exact ⟨-3, by rw [if_neg h]; norm_num⟩
  have h3 : ∃ m : ℤ, (if fs.shimmer < 0.05 then (0.2 : ℚ) else -0.1) = (m : ℚ) / 20 := by
    by_cases h : fs.shimmer < 0.05
    · exact ⟨4, by rw [if_pos h]; norm_num⟩
    · exact ⟨-2, by rw [if_neg h]; norm_num⟩
  have h4 : ∃ m : ℤ,
      (if 20.0 < fs.hnr then (0.15 : ℚ) else if fs.hnr < 10.0 then 0.1 else 0) = (m : ℚ) / 20 := by
    by_cases h : 20.0 < fs.hnr
    · exact ⟨3, by rw [if_pos h]; norm_num⟩
    · by_cases h' : fs.hnr < 10.0
      · exact ⟨2, by rw [if_neg h, if_pos h']; norm_num⟩
      · exact ⟨0, by rw [if_neg h, if_neg h']; norm_num⟩
  have h5 : ∃ m : ℤ, (if fs.spectral_flatness < 0.01 then (0.1 : ℚ) else 0) = (m : ℚ) / 20 := by
    by_cases h : fs.spectral_flatness < 0.01
    · exact ⟨2, by rw [if_pos h]; norm_num⟩
    · exact ⟨0, by rw [if_neg h]; norm_num⟩
  have h6 : ∃ m : ℤ, (if FeatureSet.silence_ratio fs < 0.02 then (0.05 : ℚ) else 0) = (m : ℚ) / 20 := by
    by_cases h : FeatureSet.silence_ratio fs < 0.02
    · exact ⟨1, by rw [if_pos h]; norm_num⟩
    · exact ⟨0, by rw [if_neg h]; norm_num⟩
  obtain ⟨m1, e1⟩ := h1
  obtain ⟨m2, e2⟩ := h2
  obtain ⟨m3, e3⟩ := h3
  obtain ⟨m4, e4⟩ := h4
  obtain ⟨m5, e5⟩ := h5
  obtain ⟨m6, e6⟩ := h6
  refine ⟨m1 + m2 + m3 + m4 + m5 + m6, ?_⟩
  unfold scoreOf
  rw [e1, e2, e3, e4, e5, e6]
  push_cast
  ring

/-- The pre-clamp probability is an integer multiple of 1/100. -/
theorem aiProbabilityRaw_exists_div100 (fs : FeatureSet) :
    ∃ k : ℤ, aiProbabilityRaw fs = (k : ℚ) / 100 := by
  obtain ⟨m, hm⟩ := scoreOf_exists_div20 fs
  refine ⟨50 + 4 * m, ?_⟩
  unfold aiProbabilityRaw
  rw [hm]
  push_cast
  ring

/-- The clamped probability is an integer multiple of 1/100. -/
theorem aiProbability_exists_div100 (fs : FeatureSet) :
    ∃ k : ℤ, aiProbability fs = (k : ℚ) / 100 := by
  obtain ⟨k, hk⟩ := aiProbabilityRaw_exists_div100 fs
  unfold aiProbability
  rw [hk]
  rcases max_cases (0.01 : ℚ) (min 0.99 ((k : ℚ) / 100)) with ⟨hmax, _⟩ | ⟨hmax, _⟩
  · exact ⟨1, by rw [hmax]; norm_num⟩
  · rcases min_cases (0.99 : ℚ) ((k : ℚ) / 100) with ⟨hmin, _⟩ | ⟨hmin, _⟩
    · exact ⟨99, by rw [hmax, hmin]; norm_num⟩
    · exact ⟨k, by rw [hmax, hmin]⟩

/-- `round(x, 2)` is the identity on exact multiples of 1/100. -/
theorem round2_intCast_div (k : ℤ) : round2 ((k : ℚ) / 100) = (k : ℚ) / 100 := by
  unfold round2
  have h : (100 : ℚ) * ((k : ℚ) / 100) = (k : ℚ) := by ring
  rw [h, Int.floor_intCast]
  norm_num

/-- Rounding leaves the clamped probability unchanged. -/
theorem round2_aiProbability (fs : FeatureSet) :
    round2 (aiProbability fs) = aiProbability fs := by
  obtain ⟨k, hk⟩ := aiProbability_exists_div100 fs
  rw [hk, round2_intCast_div]

/-- Rounding leaves the HUMAN-branch confidence unchanged. -/
theorem round2_one_sub_aiProbability (fs : FeatureSet) :
    round2 (1 - aiProbability fs) = 1 - aiProbability fs := by
  obtain ⟨k, hk⟩ := aiProbability_exists_div100 fs
  have h : 1 - aiProbability fs = ((100 - k : ℤ) : ℚ) / 100 := by
    rw [hk]; push_cast; ring
  rw [h, round2_intCast_div]

/-- Clamp bounds on the probability. -/
theorem aiProbability_bounds (fs : FeatureSet) :
    0.01 ≤ aiProbability fs ∧ aiProbability fs ≤ 0.99 := by
  unfold aiProbability
  exact ⟨le_max_left _ _, max_le (by norm_num) (min_le_left _ _)⟩

/-- C3: returned confidence is within [0.01, 0.99]; in the AI branch it
is the (rounded) clamped probability, in the HUMAN branch the (rounded)
complement, and rounding to 2 decimals is the identity on both. -/
theorem c3_confidence_spec (fs : FeatureSet) :
    (0.01 ≤ (predict fs).confidence ∧ (predict fs).confidence ≤ 0.99) ∧
    ((predict fs).label = "AI_GENERATED" →
      (predict fs).confidence = round2 (aiProbability fs) ∧
      round2 (aiProbability fs) = aiProbability fs) ∧
    ((predict fs).label = "HUMAN" →
      (predict fs).confidence = round2 (1 - aiProbability fs) ∧
      round2 (1 - aiProbability fs) = 1 - aiProbability fs) := by
  obtain ⟨hlo, hhi⟩ := aiProbability_bounds fs
  by_cases h : (0.5 : ℚ) < aiProbability fs
  · have hconf : (predict fs).confidence = round2 (aiProbability fs) := by simp [predict, h]
    have hlab : (predict fs).label = "AI_GENERATED" := by simp [predict, h]
    refine ⟨?_, fun _ => ⟨hconf, round2_aiProbability fs⟩, fun hl => ?_⟩
    · rw [hconf, round2_aiProbability fs]
      exact ⟨hlo, hhi⟩
    · rw [hlab] at hl
      exact absurd hl (by decide)
  · have hconf : (predict fs).confidence = round2 (1 - aiProbability fs) := by simp [predict, h]
    have hlab : (predict fs).label = "HUMAN" := by simp [predict, h]
    refine ⟨?_, fun hl => ?_, fun _ => ⟨hconf, round2_one_sub_aiProbability fs⟩⟩
    · rw [hconf, round2_one_sub_aiProbability fs]
      constructor <;> linarith
    · rw [hlab] at hl
      exact absurd hl (by decide)

/-- Witness for C3 at a concrete feature set classified AI_GENERATED. -/
theorem c3_confidence_spec_witness :
    (predict ⟨5, 100, 0.01, 0.02, 15, 0.5, 0.5⟩).confidence =
      round2 (aiProbability ⟨5, 100, 0.01, 0.02, 15, 0.5, 0.5⟩) ∧
    round2 (aiProbability ⟨5, 100, 0.01, 0.02, 15, 0.5, 0.5⟩) =
      aiProbability ⟨5, 100, 0.01, 0.02, 15, 0.5, 0.5⟩ :=
  (c3_confidence_spec ⟨5, 100, 0.01, 0.02, 15, 0.5, 0.5⟩).2.1
    (by norm_num [predict, aiProbability, aiProbabilityRaw, scoreOf])

/-- Attainable range of the accumulated score. -/
theorem scoreOf_bounds (fs : FeatureSet) :
    -0.4 ≤ scoreOf fs ∧ scoreOf fs ≤ 1 := by
  unfold scoreOf
  split_ifs <;> norm_num

/-- C9: the effective confidence range is [0.5, 0.99], tighter than the
spec's stated [0.01, 0.99]. -/
theorem c9_confidence_lower_bound (fs : FeatureSet) :
    0.5 ≤ (predict fs).confidence ∧ (predict fs).confidence ≤ 0.99 := by
  obtain ⟨hlo, hhi⟩ := aiProbability_bounds fs
  by_cases h : (0.5 : ℚ) < aiProbability fs
  · have hconf : (predict fs).confidence = round2 (aiProbability fs) := by simp [predict, h]
    rw [hconf, round2_aiProbability fs]
    exact ⟨le_of_lt h, hhi⟩
  · have hconf : (predict fs).confidence = round2 (1 - aiProbability fs) := by simp [predict, h]
    rw [hconf, round2_one_sub_aiProbability fs]
    push_neg at h
    constructor <;> linarith

/-- C10: the score lies in [-0.40, 1.00], the pre-clamp probability in
[0.18, 1.30], and the returned probability is never the lower clamp
bound 0.01 (it is always at least 0.18). -/
theorem c10_score_range (fs : FeatureSet) :
    (-0.4 ≤ scoreOf fs ∧ scoreOf fs ≤ 1) ∧
    (0.18 ≤ aiProbabilityRaw fs ∧ aiProbabilityRaw fs ≤ 1.3) ∧
    aiProbability fs ≠ 0.01 ∧ 0.18 ≤ aiProbability fs := by
  obtain ⟨h1, h2⟩ := scoreOf_bounds fs
  have hraw1 : (0.18 : ℚ) ≤ aiProbabilityRaw fs := by unfold aiProbabilityRaw; linarith
  have hraw2 : aiProbabilityRaw fs ≤ 1.3 := by unfold aiProbabilityRaw; linarith
  have hp : (0.18 : ℚ) ≤ aiProbability fs := by
    unfold aiProbability
    exact le_trans (le_min (by norm_num) hraw1) (le_max_right _ _)
  exact ⟨⟨h1, h2⟩, ⟨hraw1, hraw2⟩, fun he => by rw [he] at hp; norm_num at hp, hp⟩

/-- A string of positive length is not the empty string. -/
theorem str_ne_empty_of_pos (s : String) (h : 0 < s.length) : s ≠ "" := by
  intro he
  rw [he] at h
  simp at h

/-- An append whose left part is non-trivial is non-empty. -/
theorem append_ne_empty_left (a b : String) (h : 0 < a.length) : a ++ b ≠ "" := by
  apply str_ne_empty_of_pos
  rw [String.length_append]
  omega

/-- `sep.join` of a list with a non-trivial first element is non-empty. -/
theorem joinSep_ne_empty (sep x : String) (xs : List String) (hx : 0 < x.length) :
    joinSep sep (x :: xs) ≠ "" := by
  cases xs with
  | nil => exact str_ne_empty_of_pos _ hx
  | cons y ys =>
    show x ++ sep ++ joinSep sep (y :: ys) ≠ ""
    apply str_ne_empty_of_pos
    rw [String.length_append, String.length_append]
    omega

/-- The accumulated explanation list always starts with the fragment from
the pitch branch (which appends in both of its arms), and that fragment
has a non-trivial literal prefix. -/
theorem explanationsOf_cons (fs : FeatureSet) :
    ∃ x xs, explanationsOf fs = x :: xs ∧ 0 < x.length := by
  unfold explanationsOf
  by_cases h : fs.pitch_std < 20.0
  · rw [if_pos h, List.singleton_append]
    refine ⟨_, _, rfl, ?_⟩
    rw [String.length_append, String.length_append]
    have : 0 < ("Monotone pitch pattern (std: ").length := by decide
    omega
  · rw [if_neg h, List.singleton_append]
    refine ⟨_, _, rfl, ?_⟩
    rw [String.length_append, String.length_append]
    have : 0 < ("Natural pitch variation (std: ").length := by decide
    omega

/-- The explanation returned by `predict` is never the empty string. -/
theorem predict_explanation_ne (fs : FeatureSet) : (predict fs).explanation ≠ "" := by
  by_cases h : (0.5 : ℚ) < aiProbability fs
  · obtain ⟨x, xs, hx, hxl⟩ := explanationsOf_cons fs
    have hlen : 0 < (explanationsOf fs).length := by rw [hx]; simp
    have hexp : (predict fs).explanation = joinSep " | " ((explanationsOf fs).take 3) := by
      simp [predict, h, hlen]
    rw [hexp, hx]
    have htake : (x :: xs).take 3 = x :: xs.take 2 := rfl
    rw [htake]
    exact joinSep_ne_empty _ _ _ hxl
  · by_cases ht : humanTraits fs ≠ []
    · have hexp : (predict fs).explanation =
          "Natural speech characteristics: " ++ joinSep ", " (humanTraits fs) := by
        simp [predict, h, ht]
      rw [hexp]
      exact append_ne_empty_left _ _ (by decide)
    · have hexp : (predict fs).explanation = "Natural pitch variation and prosody detected" := by
        simp [predict, h, ht]
      rw [hexp]
      decide

/-- C8: for every feature set and both outcomes the returned explanation
is a non-empty string. -/
theorem c8_explanation_nonempty (fs : FeatureSet) : (predict fs).explanation ≠ "" :=
  predict_explanation_ne fs

/-- C5 counterexample: with `pitch_std = 25` (pitch check fails, a
score-decreasing branch) but every other synthetic indicator firing, the
clip is classified AI_GENERATED and the returned explanation starts with
the natural-pitch-variation fragment — not the first three
positive-indicator notes. -/
theorem c5_positive_notes_counterexample :
    (predict ⟨25, 0, 0, 0, 25, 1, 1⟩).label = "AI_GENERATED" ∧
    (predict ⟨25, 0, 0, 0, 25, 1, 1⟩).explanation ≠
      specAIExplanation ⟨25, 0, 0, 0, 25, 1, 1⟩ := by
  have hp05 : (0.5 : ℚ) < aiProbability ⟨25, 0, 0, 0, 25, 1, 1⟩ := by
    norm_num [aiProbability, aiProbabilityRaw, scoreOf, min_def, max_def]
  have he : explanationsOf ⟨25, 0, 0, 0, 25, 1, 1⟩ =
      ["Natural pitch variation (std: " ++ fmtQ 25 ++ "Hz)",
       "Perfect pitch timing (jitter: " ++ fmtQ 0 ++ ")",
       "Uniform amplitude (shimmer: " ++ fmtQ 0 ++ ")",
       "Synthetic clarity (HNR: " ++ fmtQ 25 ++ "dB)"] := by
    norm_num [explanationsOf]
  have hpn : positiveNotesOf ⟨25, 0, 0, 0, 25, 1, 1⟩ =
      ["Perfect pitch timing (jitter: " ++ fmtQ 0 ++ ")",
       "Uniform amplitude (shimmer: " ++ fmtQ 0 ++ ")",
       "Synthetic clarity (HNR: " ++ fmtQ 25 ++ "dB)"] := by
    norm_num [positiveNotesOf]
  have hlen : 0 < (explanationsOf (⟨25, 0, 0, 0, 25, 1, 1⟩ : FeatureSet)).length := by
    rw [he]; simp
  have hexp : (predict ⟨25, 0, 0, 0, 25, 1, 1⟩).explanation =
      joinSep " | " ((explanationsOf (⟨25, 0, 0, 0, 25, 1, 1⟩ : FeatureSet)).take 3) := by
    simp [predict, hp05, hlen]
  have hspec : specAIExplanation ⟨25, 0, 0, 0, 25, 1, 1⟩ =
      joinSep " | "
        ["Perfect pitch timing (jitter: " ++ fmtQ 0 ++ ")",
         "Uniform amplitude (shimmer: " ++ fmtQ 0 ++ ")",
         "Synthetic clarity (HNR: " ++ fmtQ 25 ++ "dB)"] := by
    simp [specAIExplanation, hpn]
  refine ⟨by simp [predict, hp05], ?_⟩
  rw [hexp, he, hspec]
  decide

/-- C5 as amended: whenever the label is AI_GENERATED, the returned
explanation is the first three accumulated notes (positive indicators
plus the natural-pitch-variation note from the failed pitch check)
joined with " | ", or the generic fallback if none were accumulated. -/
theorem c5_ai_explanation_amended (fs : FeatureSet)
    (h : (predict fs).label = "AI_GENERATED") :
    (predict fs).explanation = specAIExplanationAmended fs := by
  by_cases hp : (0.5 : ℚ) < aiProbability fs
  · obtain ⟨x, xs, hx, _⟩ := explanationsOf_cons fs
    have hlen : 0 < (explanationsOf fs).length := by rw [hx]; simp
    have hne : explanationsOf fs ≠ [] := by rw [hx]; simp
    unfold specAIExplanationAmended
    simp [predict, hp, hlen, hne]
  · have hlab : (predict fs).label = "HUMAN" := by simp [predict, hp]
    rw [hlab] at h
    exact absurd h (by decide)

/-- Witness for the amended C5 at a concrete AI_GENERATED feature set. -/
theorem c5_ai_explanation_amended_witness :
    (predict ⟨0, 0, 0, 0, 10, 1, 1⟩).explanation =
      specAIExplanationAmended ⟨0, 0, 0, 0, 10, 1, 1⟩ :=
  c5_ai_explanation_amended ⟨0, 0, 0, 0, 10, 1, 1⟩
    (by norm_num [predict, aiProbability, aiProbabilityRaw, scoreOf, min_def, max_def])

/-- C6: a decoded signal one sample short of 0.5 s at 22050 Hz is
rejected with a descriptive error; one of exactly 0.5 s is accepted. -/
theorem c6_min_duration :
    (∃ msg, decode_audio (List.replicate 11024 0) = Except.error msg ∧ msg ≠ "") ∧
    decode_audio (List.replicate 11025 0) = Except.ok (List.replicate 11025 0, 22050) := by
  have h1 : ((List.replicate 11024 (0 : ℚ)).length : ℚ) < 22050 * 0.5 := by
    rw [List.length_replicate]; norm_num
  have h2 : ¬ ((List.replicate 11025 (0 : ℚ)).length : ℚ) < 22050 * 0.5 := by
    rw [List.length_replicate]; norm_num
  refine ⟨⟨"Failed to process audio: Audio processing failed: Audio too short (min 0.5s required)",
    ?_, by decide⟩, ?_⟩
  · unfold decode_audio
    rw [if_pos h1]
  · unfold decode_audio
    rw [if_neg h2]

/-- `getD` with default 0 on an all-zero list is 0 at every index. -/
theorem getD_zero_of_all (l : List ℚ) (h : ∀ x ∈ l, x = 0) (i : ℕ) : l.getD i 0 = 0 := by
  rw [List.getD_eq_getElem?_getD]
  cases hq : l[i]? with
  | none => rfl
  | some a =>
    obtain ⟨_, rfl⟩ := List.getElem?_eq_some_iff.1 hq
    exact h _ (List.getElem_mem _)

/-- Pointwise products against an all-zero left factor vanish. -/
theorem zipWith_mul_zero (l1 l2 : List ℚ) (h1 : ∀ x ∈ l1, x = 0) :
    ∀ x ∈ List.zipWith (· * ·) l1 l2, x = 0 := by
  induction l1 generalizing l2 with
  | nil => simp
  | cons a t ih =>
    cases l2 with
    | nil => simp
    | cons b t2 =>
      intro x hx
      rcases List.mem_cons.1 hx with rfl | hx
      · rw [h1 a (List.mem_cons_self _ _)]
        ring
      · exact ih t2 (fun z hz => h1 z (List.mem_cons_of_mem _ hz)) x hx

/-- The autocorrelation of an all-zero signal is identically zero. -/
theorem autocorrelate_zero (y : List ℚ) (hy : ∀ x ∈ y, x = 0) :
    ∀ x ∈ autocorrelate y, x = 0 := by
  intro x hx
  obtain ⟨k, _, rfl⟩ := List.mem_map.1 hx
  exact List.sum_eq_zero (zipWith_mul_zero y (y.drop k) hy)

/-- On an all-zero signal the peak scan finds no strict local maximum,
so `calculate_hnr` returns its default 10.0. -/
theorem calculate_hnr_zero (y : List ℚ) (hy : ∀ x ∈ y, x = 0) :
    calculate_hnr y 22050 = 10 := by
  have hz := autocorrelate_zero y hy
  have hfp : findPeaks (autocorrelate y) 22050 = [] := by
    apply List.filterMap_eq_nil_iff.2
    intro i _
    apply if_neg
    intro hcond
    have hlt := hcond.2.1
    rw [getD_zero_of_all _ hz, getD_zero_of_all _ hz] at hlt
    exact lt_irrefl _ hlt
  unfold calculate_hnr hnrFromAutocorr
  rw [hfp]
  rfl

/-- C7: for a silent (all-zero) signal of valid length, no step fails:
jitter and shimmer evaluate to 0.0 (the pitch tracker reports no voiced
F0 on silence and the RMS frames are all zero — recorded as hypotheses
since `librosa.pyin` / `librosa.feature.rms` are external), HNR
evaluates to the 10.0 default, and `predict` still produces a label and
a non-empty explanation. -/
theorem c7_silent_signal_safety (y f0 rms : List ℚ) (fl sil : ℚ)
    (hy : ∀ x ∈ y, x = 0) (hlen : 11025 ≤ y.length)
    (hf0 : (f0.filter fun x => 0 < x).length < 2)
    (hrms : ∀ x ∈ rms, x = 0) :
    calculate_jitter f0 = 0 ∧
    calculate_shimmer rms = 0 ∧
    calculate_hnr y 22050 = 10 ∧
    ((predict ⟨0, 0, 0, 0, 10, fl, sil⟩).label = "AI_GENERATED" ∨
      (predict ⟨0, 0, 0, 0, 10, fl, sil⟩).label = "HUMAN") ∧
    (predict ⟨0, 0, 0, 0, 10, fl, sil⟩).explanation ≠ "" := by
  have _ : 0 < y.length := lt_of_lt_of_le (by norm_num) hlen
  refine ⟨?_, ?_, calculate_hnr_zero y hy, ?_, predict_explanation_ne _⟩
  · simp [calculate_jitter, hf0]
  · by_cases h2 : rms.length < 2
    · simp [calculate_shimmer, h2]
    · have hmean : mean rms = 0 := by
        unfold mean
        rw [List.sum_eq_zero hrms]
        simp
      simp [calculate_shimmer, h2, hmean]
  · by_cases h : (0.5 : ℚ) < aiProbability ⟨0, 0, 0, 0, 10, fl, sil⟩
    · exact Or.inl (by simp [predict, h])
    · exact Or.inr (by simp [predict, h])

/-- Witness for C7: the all-zero 0.5-second signal, an empty pitch
track, and three zero RMS frames. -/
theorem c7_silent_signal_safety_witness :
    calculate_jitter [] = 0 ∧
    calculate_shimmer [0, 0, 0] = 0 ∧
    calculate_hnr (List.replicate 11025 0) 22050 = 10 ∧
    ((predict ⟨0, 0, 0, 0, 10, 1, 1⟩).label = "AI_GENERATED" ∨
      (predict ⟨0, 0, 0, 0, 10, 1, 1⟩).label = "HUMAN") ∧
    (predict ⟨0, 0, 0, 0, 10, 1, 1⟩).explanation ≠ "" :=
  c7_silent_signal_safety (List.replicate 11025 0) [] [0, 0, 0] 1 1
    (fun _ hx => List.eq_of_mem_replicate hx)
    (by norm_num [List.length_replicate])
    (by decide)
    (by decide)

set_option maxRecDepth 8000 in
/-- C4 counterexample: on `hnrCounterSignal` the source's noise window
(the 49 samples `autocorr[p+1 : p+50]`) has negative mean, so the code
returns the 10.0 default, while the claimed 50-sample window has
positive mean and a peak/noise ratio below 1, so the claimed computation
returns 0 after clipping.  The two disagree. -/
theorem c4_noise_window_counterexample :
    calculate_hnr hnrCounterSignal 22050 = 10 ∧
    calculate_hnr50 hnrCounterSignal 22050 = 0 ∧
    calculate_hnr hnrCounterSignal 22050 ≠ calculate_hnr50 hnrCounterSignal 22050 := by
  have hac : autocorrelate hnrCounterSignal = hnrCounterAC := by
    norm_num [autocorrelate, autocorrAt, hnrCounterSignal, hnrCounterAC,
      List.replicate, List.zipWith, List.range_succ]
  have hmp : maxPeak (findPeaks hnrCounterAC 22050) = some (2, 102) := by decide
  have hcode : calculate_hnr hnrCounterSignal 22050 = 10 := by
    have hn : hnrNoise hnrCounterAC 2 = -51 / 49 := by
      norm_num [hnrNoise, hnrCounterAC, mean, List.replicate]
    unfold calculate_hnr
    rw [hac]
    unfold hnrFromAutocorr
    rw [hmp]
    show (if 0 < hnrNoise hnrCounterAC 2 then _ else (10 : ℝ)) = 10
    rw [if_neg (by rw [hn]; norm_num)]
  have hclaim : calculate_hnr50 hnrCounterSignal 22050 = 0 := by
    have hn : hnrNoise50 hnrCounterAC 2 = 5151 / 50 := by
      norm_num [hnrNoise50, hnrCounterAC, mean, List.replicate]
    unfold calculate_hnr50
    rw [hac]
    unfold hnr50FromAutocorr
    rw [hmp]
    show (if 0 < hnrNoise50 hnrCounterAC 2 then
        np_clip (10 * Real.logb 10 (((102 : ℚ) : ℝ) / ((hnrNoise50 hnrCounterAC 2 : ℚ) : ℝ))) 0 40
      else (10 : ℝ)) = 0
    rw [if_pos (by rw [hn]; norm_num), hn]
    have hr : (((102 : ℚ) : ℝ) / (((5151 / 50 : ℚ) : ℚ) : ℝ)) = (1700 / 1717 : ℝ) := by
      push_cast
      norm_num
    rw [hr]
    have hlog : Real.logb 10 (1700 / 1717) ≤ 0 :=
      Real.logb_nonpos (by norm_num) (by norm_num) (by norm_num)
    have hv : (10 : ℝ) * Real.logb 10 (1700 / 1717) ≤ 0 := by linarith
    unfold np_clip
    rw [max_eq_right hv, min_eq_left (by norm_num)]
  exact ⟨hcode, hclaim, by rw [hcode, hclaim]; norm_num⟩

/-- The code's noise window equals the amended description: 49 samples
after the peak, or all remaining when fewer than 49 remain. -/
theorem hnrNoise_eq_49 (ac : List ℚ) (p : ℕ) : hnrNoise ac p = hnrNoise49 ac p := by
  unfold hnrNoise hnrNoise49
  split_ifs with h
  · rfl
  · rw [List.take_of_length_le]
    rw [List.length_drop]
    omega

/-- C4 as amended: for every signal and sample rate, `calculate_hnr`
implements the described computation with a 49-sample noise window
(`autocorr[p+1 : p+50]`), all other steps as the claim states them. -/
theorem c4_hnr_noise_window_amended (y : List ℚ) (sr : ℕ) :
    calculate_hnr y sr = calculate_hnr49 y sr := by
  unfold calculate_hnr calculate_hnr49 hnrFromAutocorr hnr49FromAutocorr
  cases maxPeak (findPeaks (autocorrelate y) sr) with
  | none => rfl
  | some pv => simp only [hnrNoise_eq_49]
